import Mathlib

set_option maxRecDepth 100000

/-!
Shallow embedding, in Lean 4, of the attribution core of the
TrackAppointments attribution-tracker backend (a Python/FastAPI service).

Conventions used throughout:

* Python `float` arithmetic is modelled over `ℚ`.  Wherever a statement
  could conceivably be sensitive to IEEE-754 rounding noise (magnitude
  about 1e-16 for the values involved), the margins in the statements
  proved are at least 1e-3, so the idealisation cannot change any
  verdict.  Where the *choice* of binary floating point itself is the
  property under study (monetary normalisation), binary64 values are
  modelled explicitly as correctly-rounded dyadic rationals
  (`fp64round` below).
* Python `round(x, d)` is modelled by `roundTo d`.  Python rounds exact
  ties half-even while Mathlib's `round` rounds them half-up; no value
  appearing in any concrete evaluation below sits on a tie, and the
  generic bound `|roundTo d x - x| ≤ 1/(2·10^d)` holds for either rule.
* Code that draws from Python's `random` module is modelled as a
  function of the list of draws, so that the dependence of the result
  on the randomness is explicit.
* `try/except`-wrapped bodies are modelled as total functions whose
  error branches return exactly what the corresponding `except` clause
  returns.
-/

/-- Model of Python `round(q, d)` over the rationals: round to `d`
decimal places. -/
def roundTo (d : ℕ) (q : ℚ) : ℚ :=
  (round (q * 10 ^ d) : ℚ) / 10 ^ d

/-! ### `track_booking` (backend/main.py, lines 359-424)

The endpoint rejects non-positive booking values with HTTP 400
("Booking value must be greater than 0"); otherwise it fabricates
`random.randint(1, 4)` touchpoints, each carrying a raw weight
`round(random.uniform(0.1, 0.4), 2)`, and then renormalises:
`tp.weight = round(raw / total, 3)`.  The raw weights are modelled as
an explicit list of rational draws (each a multiple of 1/100 in
[1/10, 2/5], the image of the rounded uniform draw). -/

/-- Weight renormalisation step of `track_booking`
(main.py lines 390-393): divide each raw weight by the total, rounding
the quotient to three decimal places. -/
def normalize_weights (raw_weights : List ℚ) : List ℚ :=
  let total := raw_weights.sum
  raw_weights.map (fun w => roundTo 3 (w / total))

/-- Caller-visible rejections of the booking endpoint. -/
inductive TrackError where
  | invalidInput
deriving DecidableEq

/-- Model of the `track_booking` endpoint: validation of the booking
value followed by the randomised weighting step, as a function of the
raw random draws.  The successful result is the list of attribution
weights attached to the fabricated touchpoints. -/
def track_booking (booking_value : ℚ) (raw_weights : List ℚ) :
    Except TrackError (List ℚ) :=
  if booking_value ≤ 0 then .error .invalidInput
  else .ok (normalize_weights raw_weights)

/-- A raw weight draw reachable from `round(random.uniform(0.1, 0.4), 2)`:
a multiple of 1/100 lying in [1/10, 2/5]. -/
def reachable_draw (w : ℚ) : Prop :=
  ∃ k : ℕ, 10 ≤ k ∧ k ≤ 40 ∧ w = (k : ℚ) / 100

/-! ### `calculate_attribution_confidence`
(backend/app/services/real_data_service.py, lines 321-359) -/

/-- One event as consumed by the confidence calculation: the
`source` / `event_type` / `cross_platform_match` fields read by the
Python code. -/
structure AttributionEvent where
  source : String
  event_type : String
  cross_platform_match : Bool
deriving DecidableEq

/-- Per-event contribution to `high_confidence_events`
(real_data_service.py lines 332-340): payment-platform conversions
count 1, ad-platform clicks count 0.8, everything else 0. -/
def event_quality (e : AttributionEvent) : ℚ :=
  if (e.source = "square_payments" ∨ e.source = "stripe_payments") ∧
      e.event_type = "conversion" then 1
  else if (e.source = "facebook_ads" ∨ e.source = "google_ads") ∧
      e.event_type = "ad_click" then 4 / 5
  else 0

/-- The running `high_confidence_events` total. -/
def high_confidence_total (events : List AttributionEvent) : ℚ :=
  (events.map event_quality).sum

/-- The running `cross_platform_matches` count. -/
def cross_platform_count (events : List AttributionEvent) : ℕ :=
  events.countP (fun e => e.cross_platform_match)

/-- Model of `calculate_attribution_confidence`
(real_data_service.py lines 321-359): empty input yields confidence 0;
otherwise base = quality-share of events times 100, plus a
cross-platform bonus capped at 15, the sum capped at 98.5 and rounded
to one decimal. -/
def calculate_attribution_confidence (events : List AttributionEvent) : ℚ :=
  if events = [] then 0
  else
    let total : ℚ := events.length
    let base := high_confidence_total events / total * 100
    let bonus := min (cross_platform_count events / total * 10) 15
    roundTo 1 (min (base + bonus) (197 / 2))

/-! ### `_calculate_booking_value`
(backend/app/services/square_booking_service.py, lines 216-247) -/

/-- Price assigned to one appointment segment from its
`duration_minutes` (default 60 when the key is missing):
up to 30 minutes a beard trim (25), up to 60 a haircut (45),
otherwise full service (75). -/
def default_segment_price (duration_minutes : Option ℕ) : ℚ :=
  let duration := duration_minutes.getD 60
  if duration ≤ 30 then 25
  else if duration ≤ 60 then 45
  else 75

/-- Model of `_calculate_booking_value`: when the estimation body
raises internally the `except` clause returns 45; otherwise the
segment prices are summed and floored at 35 (`max(total_value, 35.0)`).
A segment is represented by its optional `duration_minutes` field. -/
def calculate_booking_value (estimation_failed : Bool)
    (segments : List (Option ℕ)) : ℚ :=
  if estimation_failed then 45
  else max ((segments.map default_segment_price).sum) 35

/-! ### SHA-256, HMAC-SHA256 and UTF-8 (models of Python's `hashlib`,
`hmac` and `str.encode`)

The identity hasher and the webhook verifier call `hashlib.sha256` and
`hmac.new(..., hashlib.sha256)` on UTF-8 encoded strings.  These
library primitives are implemented here in full (FIPS 180-4 / RFC 2104
semantics) over `ℕ`-valued bytes so that concrete digests can be
evaluated inside Lean.  All recursion is structural, keeping the
functions kernel-reducible. -/

/-- Word size modulus for 32-bit arithmetic. -/
def w32 : ℕ := 4294967296

/-- Addition modulo 2^32. -/
def add32 (a b : ℕ) : ℕ := (a + b) % w32

/-- Right rotation of a 32-bit word. -/
def rotr32 (n x : ℕ) : ℕ := ((x >>> n) ||| (x <<< (32 - n))) % w32

/-- Bitwise complement of a 32-bit word. -/
def not32 (x : ℕ) : ℕ := x ^^^ (w32 - 1)

/-- SHA-256 round constants. -/
def sha256K : List ℕ :=
  [1116352408, 1899447441, 3049323471, 3921009573, 961987163,
   1508970993, 2453635748, 2870763221, 3624381080, 310598401,
   607225278, 1426881987, 1925078388, 2162078206, 2614888103,
   3248222580, 3835390401, 4022224774, 264347078, 604807628,
   770255983, 1249150122, 1555081692, 1996064986, 2554220882,
   2821834349, 2952996808, 3210313671, 3336571891, 3584528711,
   113926993, 338241895, 666307205, 773529912, 1294757372,
   1396182291, 1695183700, 1986661051, 2177026350, 2456956037,
   2730485921, 2820302411, 3259730800, 3345764771, 3516065817,
   3600352804, 4094571909, 275423344, 430227734, 506948616,
   659060556, 883997877, 958139571, 1322822218, 1537002063,
   1747873779, 1955562222, 2024104815, 2227730452, 2361852424,
   2428436474, 2756734187, 3204031479, 3329325298]

/-- SHA-256 initial hash value. -/
def sha256H0 : List ℕ :=
  [1779033703, 3144134277, 1013904242, 2773480762,
   1359893119, 2600822924, 528734635, 1541459225]

/-- SHA-256 Σ0. -/
def bigSigma0 (x : ℕ) : ℕ := rotr32 2 x ^^^ rotr32 13 x ^^^ rotr32 22 x

/-- SHA-256 Σ1. -/
def bigSigma1 (x : ℕ) : ℕ := rotr32 6 x ^^^ rotr32 11 x ^^^ rotr32 25 x

/-- SHA-256 σ0. -/
def smallSigma0 (x : ℕ) : ℕ := rotr32 7 x ^^^ rotr32 18 x ^^^ (x >>> 3)

/-- SHA-256 σ1. -/
def smallSigma1 (x : ℕ) : ℕ := rotr32 17 x ^^^ rotr32 19 x ^^^ (x >>> 10)

/-- SHA-256 Ch. -/
def ch32 (x y z : ℕ) : ℕ := (x &&& y) ^^^ (not32 x &&& z)

/-- SHA-256 Maj. -/
def maj32 (x y z : ℕ) : ℕ := (x &&& y) ^^^ (x &&& z) ^^^ (y &&& z)

/-- Big-endian 32-bit word from a list of bytes. -/
def bytesToWordBE (bs : List ℕ) : ℕ := bs.foldl (fun acc b => acc * 256 + b) 0

/-- Big-endian bytes of a 32-bit word. -/
def wordToBytesBE (x : ℕ) : List ℕ :=
  [x / 2 ^ 24 % 256, x / 2 ^ 16 % 256, x / 2 ^ 8 % 256, x % 256]

/-- SHA-256 message padding: append 0x80, zero-fill to 56 mod 64, then
the 64-bit big-endian bit length. -/
def sha256Pad (msg : List ℕ) : List ℕ :=
  let len := msg.length
  let zeros := (119 - len % 64) % 64
  let bits := 8 * len
  msg ++ [0x80] ++ List.replicate zeros 0 ++
    [bits / 2 ^ 56 % 256, bits / 2 ^ 48 % 256, bits / 2 ^ 40 % 256,
     bits / 2 ^ 32 % 256, bits / 2 ^ 24 % 256, bits / 2 ^ 16 % 256,
     bits / 2 ^ 8 % 256, bits % 256]

/-- SHA-256 compression of one 64-byte block into the running hash
(eight 32-bit words). -/
def sha256Block (h : List ℕ) (block : List ℕ) : List ℕ :=
  let w16 := (List.range 16).map (fun i => bytesToWordBE ((block.drop (4 * i)).take 4))
  let w := (List.range 48).foldl (fun acc i =>
    acc ++ [add32 (add32 (smallSigma1 (acc.getD (i + 14) 0)) (acc.getD (i + 9) 0))
      (add32 (smallSigma0 (acc.getD (i + 1) 0)) (acc.getD i 0))]) w16
  let st := (List.range 64).foldl (fun st i =>
    match st with
    | (a, b, c, d, e, f, g, hh) =>
      let t1 := add32 (add32 (add32 hh (bigSigma1 e))
        (add32 (ch32 e f g) (sha256K.getD i 0))) (w.getD i 0)
      let t2 := add32 (bigSigma0 a) (maj32 a b c)
      (add32 t1 t2, a, b, c, add32 d t1, e, f, g))
    (h.getD 0 0, h.getD 1 0, h.getD 2 0, h.getD 3 0,
     h.getD 4 0, h.getD 5 0, h.getD 6 0, h.getD 7 0)
  match st with
  | (a, b, c, d, e, f, g, hh) =>
    [add32 (h.getD 0 0) a, add32 (h.getD 1 0) b, add32 (h.getD 2 0) c,
     add32 (h.getD 3 0) d, add32 (h.getD 4 0) e, add32 (h.getD 5 0) f,
     add32 (h.getD 6 0) g, add32 (h.getD 7 0) hh]

/-- The 64-byte blocks of a padded message. -/
def sha256Chunks (padded : List ℕ) : List (List ℕ) :=
  (List.range (padded.length / 64)).map (fun i => (padded.drop (64 * i)).take 64)

/-- SHA-256 digest of a byte list, as 32 bytes. -/
def sha256Bytes (msg : List ℕ) : List ℕ :=
  (((sha256Chunks (sha256Pad msg)).foldl sha256Block sha256H0).map wordToBytesBE).flatten

/-- Lower-case hex digit. -/
def hexDigitChar (n : ℕ) : Char :=
  if n < 10 then Char.ofNat (48 + n) else Char.ofNat (87 + n)

/-- Lower-case hex string of a byte list (Python `.hexdigest()`). -/
def bytesToHex (bs : List ℕ) : String :=
  String.mk ((bs.map (fun b => [hexDigitChar (b / 16), hexDigitChar (b % 16)])).flatten)

/-- Model of `hashlib.sha256(msg).hexdigest()`. -/
def sha256_hexdigest (msg : List ℕ) : String := bytesToHex (sha256Bytes msg)

/-- UTF-8 encoding of one character. -/
def utf8EncodeChar (c : Char) : List ℕ :=
  let n := c.toNat
  if n < 0x80 then [n]
  else if n < 0x800 then [0xc0 ||| (n >>> 6), 0x80 ||| (n &&& 0x3f)]
  else if n < 0x10000 then
    [0xe0 ||| (n >>> 12), 0x80 ||| ((n >>> 6) &&& 0x3f), 0x80 ||| (n &&& 0x3f)]
  else
    [0xf0 ||| (n >>> 18), 0x80 ||| ((n >>> 12) &&& 0x3f),
     0x80 ||| ((n >>> 6) &&& 0x3f), 0x80 ||| (n &&& 0x3f)]

/-- Python `str.encode()`: UTF-8 bytes of a string. -/
def encodeStr (s : String) : List ℕ := (s.data.map utf8EncodeChar).flatten

/-- RFC 2104 HMAC-SHA256 over byte lists (block size 64). -/
def hmacSha256Bytes (key msg : List ℕ) : List ℕ :=
  let k0 := if 64 < key.length then sha256Bytes key else key
  let kp := k0 ++ List.replicate (64 - k0.length) 0
  sha256Bytes ((kp.map (fun b => b ^^^ 0x5c)) ++
    sha256Bytes ((kp.map (fun b => b ^^^ 0x36)) ++ msg))

/-- Model of `hmac.new(key.encode(), payload.encode(), hashlib.sha256).hexdigest()`. -/
def hmac_sha256_hexdigest (key payload : String) : String :=
  bytesToHex (hmacSha256Bytes (encodeStr key) (encodeStr payload))

/-! ### Identity hashing and webhook verification
(backend/app/services/square_booking_service.py) -/

/-- Python `str.lower()`, character by character.  (Python lower-cases
beyond ASCII; `Char.toLower` agrees with it on the ASCII identifiers
considered here.) -/
def lower_str (s : String) : String := String.mk (s.data.map Char.toLower)

/-- Email identifier hash (`_process_for_attribution`, lines 187-190):
`sha256((email.lower() + hash_salt).encode()).hexdigest()`.  Note the
code lower-cases but does not strip whitespace. -/
def email_hash_hex (email salt : String) : String :=
  sha256_hexdigest (encodeStr (lower_str email ++ salt))

/-- Phone normalisation (`_process_for_attribution`, line 194):
`''.join(filter(str.isdigit, phone))`. -/
def clean_phone (phone : String) : String :=
  String.mk (phone.data.filter Char.isDigit)

/-- Phone identifier hash (`_process_for_attribution`, lines 195-197):
`sha256((clean_phone + hash_salt).encode()).hexdigest()`. -/
def phone_hash_hex (phone salt : String) : String :=
  sha256_hexdigest (encodeStr (clean_phone phone ++ salt))

/-- Model of `verify_webhook_signature` (square_booking_service.py,
lines 249-266).  `none` models an unset `SQUARE_WEBHOOK_SIGNATURE_KEY`
environment variable; a configured-but-empty key is Python-falsy and is
handled like `none` by `if not self.webhook_signature_key`.
`hmac.compare_digest` is string equality (its timing behaviour is not
modelled). -/
def verify_webhook_signature (webhook_signature_key : Option String)
    (payload signature : String) : Bool :=
  match webhook_signature_key with
  | none => true
  | some key =>
    if key = "" then true
    else signature == hmac_sha256_hexdigest key payload

/-! ### Binary64 model and monetary normalisation
(backend/app/services/real_data_service.py, lines 151, 222, 287)

The code converts platform-native integer amounts with Python floats:
`float(metrics.get('costMicros', 0)) / 1_000_000` and
`float(amount_money.get('amount', 0)) / 100`.  A Python float is an
IEEE-754 binary64 value; the conversion therefore produces the binary64
value nearest to the exact quotient.  `fp64round` maps a rational to
the nearest significand-53-bit dyadic rational (round-to-nearest;
tie handling and overflow/subnormal ranges are irrelevant for the
amounts considered, and no value used below sits on a tie). -/

/-- Round a rational to the nearest binary64-representable value
(53-bit significand, unbounded exponent). -/
def fp64round (q : ℚ) : ℚ :=
  if q = 0 then 0
  else
    ((round (q / 2 ^ (Int.log 2 |q| - 52)) : ℤ) : ℚ) * 2 ^ (Int.log 2 |q| - 52)

/-- A dyadic rational: exactly the values a binary floating-point
format can represent. -/
def isDyadic (q : ℚ) : Prop := ∃ (k : ℤ) (n : ℕ), q = (k : ℚ) / 2 ^ n

/-- Google Ads monetary normalisation (real_data_service.py line 151):
`float(metrics.get('costMicros', 0)) / 1_000_000`. -/
def google_cost_micros_to_dollars (costMicros : ℕ) : ℚ :=
  fp64round ((costMicros : ℚ) / 1000000)

/-- Square monetary normalisation (real_data_service.py line 222):
`float(amount_money.get('amount', 0)) / 100`. -/
def square_amount_to_dollars (amount : ℕ) : ℚ :=
  fp64round ((amount : ℚ) / 100)

/-- Stripe monetary normalisation (real_data_service.py line 287):
`float(charge.get('amount', 0)) / 100`. -/
def stripe_amount_to_dollars (amount : ℕ) : ℚ :=
  fp64round ((amount : ℚ) / 100)

/-! ### Platform fetch layer and aggregation
(backend/app/services/real_data_service.py, lines 32-319 and 455-508;
backend/app/api/v1/endpoints/data_integration.py, lines 24-92)

Each `fetch_*` method wraps its whole body in `try/except`; a non-200
HTTP status, a transport error, a parse error or an uninitialised
session all end in the platform's `_get_fallback_*_data()` constant.
`ApiResult` models the outcome of the one network interaction a fetch
performs.  The normalized record keeps the fields the cited endpoints
read; the per-campaign / per-transaction lists, which are likewise
fixed constants in the fallbacks, are summarised by the totals the
code computes from them. -/

/-- Outcome of one platform API interaction: a 200 response with a
parsed payload, a non-200 status, or a raised exception (transport or
parse failure, uninitialised session). -/
inductive ApiResult (α : Type) where
  | ok (payload : α)
  | httpError (status : ℕ)
  | exn
deriving DecidableEq

/-- One Facebook campaign row as read by `fetch_facebook_conversions`:
`spend`, `clicks` and the `actions` list of (action_type, value)
pairs. -/
structure FbCampaign where
  campaign_name : String
  spend : ℚ
  clicks : ℕ
  actions : List (String × ℕ)
deriving DecidableEq

/-- Conversion count extracted from a Facebook `actions` list
(real_data_service.py lines 68-72): values of `purchase`, `lead` and
`complete_registration` actions. -/
def fbConversions (actions : List (String × ℕ)) : ℕ :=
  (actions.filter (fun a =>
    a.1 = "purchase" ∨ a.1 = "lead" ∨ a.1 = "complete_registration")).foldl
    (fun acc a => acc + a.2) 0

/-- One Google Ads result row as read by `fetch_google_ads_data`. -/
structure GoogleRow where
  name : String
  costMicros : ℕ
  clicks : ℕ
  conversions : ℚ
deriving DecidableEq

/-- One Square payment as read by `fetch_square_transactions`:
the integer cent amount and the payment status. -/
structure SquarePayment where
  amount : ℕ
  payment_status : String
deriving DecidableEq

/-- One Stripe charge as read by `fetch_stripe_events`. -/
structure StripeCharge where
  amount : ℕ
  charge_status : String
deriving DecidableEq

/-- A normalized platform record: the `status` / `source` /
summary fields the cited consumers read.  `total_count` stands for the
per-platform count key (`total_conversions`, `total_transactions`,
`total_charges`). -/
structure PlatformData where
  status : String
  source : String
  total_spend : ℚ
  total_revenue : ℚ
  total_count : ℚ
  attribution_confidence : ℚ
deriving DecidableEq

/-- Record returned by `_get_fallback_facebook_data()` (lines 365-388), summarised. -/
def fallback_facebook_data : PlatformData :=
  { status := "fallback", source := "facebook_ads", total_spend := 1847.32,
    total_revenue := 0, total_count := 23, attribution_confidence := 92.5 }

/-- Record returned by `_get_fallback_google_data()` (lines 390-413), summarised. -/
def fallback_google_data : PlatformData :=
  { status := "fallback", source := "google_ads", total_spend := 1342.15,
    total_revenue := 0, total_count := 31, attribution_confidence := 89.3 }

/-- Record returned by `_get_fallback_square_data()` (lines 415-433), summarised. -/
def fallback_square_data : PlatformData :=
  { status := "fallback", source := "square_payments", total_spend := 0,
    total_revenue := 300.50, total_count := 3, attribution_confidence := 96.8 }

/-- Record returned by `_get_fallback_stripe_data()` (lines 435-452), summarised. -/
def fallback_stripe_data : PlatformData :=
  { status := "fallback", source := "stripe_payments", total_spend := 0,
    total_revenue := 225.00, total_count := 2, attribution_confidence := 95.2 }

/-- Model of `fetch_facebook_conversions` (lines 32-104): a 200
response is normalized with the hardcoded confidence 92.5; every other
outcome ends in the fallback constant. -/
def fetch_facebook_conversions : ApiResult (List FbCampaign) → PlatformData
  | .ok campaigns =>
    { status := "success", source := "facebook_ads",
      total_spend := (campaigns.map (fun c => c.spend)).sum,
      total_revenue := 0,
      total_count := ((campaigns.map (fun c => fbConversions c.actions)).sum : ℕ),
      attribution_confidence := 92.5 }
  | .httpError _ => fallback_facebook_data
  | .exn => fallback_facebook_data

/-- Model of `fetch_google_ads_data` (lines 106-185); spend is
converted from micros per row. -/
def fetch_google_ads_data : ApiResult (List GoogleRow) → PlatformData
  | .ok rows =>
    { status := "success", source := "google_ads",
      total_spend := (rows.map (fun r => google_cost_micros_to_dollars r.costMicros)).sum,
      total_revenue := 0,
      total_count := (rows.map (fun r => r.conversions)).sum,
      attribution_confidence := 89.3 }
  | .httpError _ => fallback_google_data
  | .exn => fallback_google_data

/-- Model of `fetch_square_transactions` (lines 187-254); revenue and
count come from `COMPLETED` payments only, amounts converted from
cents. -/
def fetch_square_transactions : ApiResult (List SquarePayment) → PlatformData
  | .ok payments =>
    let completed := payments.filter (fun p => p.payment_status = "COMPLETED")
    { status := "success", source := "square_payments",
      total_spend := 0,
      total_revenue := (completed.map (fun p => square_amount_to_dollars p.amount)).sum,
      total_count := (completed.length : ℕ),
      attribution_confidence := 96.8 }
  | .httpError _ => fallback_square_data
  | .exn => fallback_square_data

/-- Model of `fetch_stripe_events` (lines 256-319); revenue and count
come from `succeeded` charges only. -/
def fetch_stripe_events : ApiResult (List StripeCharge) → PlatformData
  | .ok charges =>
    let succeeded := charges.filter (fun c => c.charge_status = "succeeded")
    { status := "success", source := "stripe_payments",
      total_spend := 0,
      total_revenue := (succeeded.map (fun c => stripe_amount_to_dollars c.amount)).sum,
      total_count := (succeeded.length : ℕ),
      attribution_confidence := 95.2 }
  | .httpError _ => fallback_stripe_data
  | .exn => fallback_stripe_data

/-- The four-platform aggregate returned by `get_all_platform_data`. -/
structure PlatformMap where
  facebook : PlatformData
  google : PlatformData
  square : PlatformData
  stripe : PlatformData
deriving DecidableEq

/-- Model of `get_all_platform_data` (lines 455-508).  A task is
appended per present token (in the order facebook, google, square,
stripe); `asyncio.gather` preserves task order in `results`; the four
keys are then filled positionally from `results[0]`..`results[3]`,
falling back per key when the index is out of range.  The
`isinstance(result, Exception)` guards cannot fire because every fetch
catches all its exceptions, so they are not modelled.  A token is
`none` when the environment variable is unset (or Python-falsy
empty). -/
def get_all_platform_data
    (facebook_token google_token square_token stripe_token : Option String)
    (fbResp : ApiResult (List FbCampaign)) (gResp : ApiResult (List GoogleRow))
    (sqResp : ApiResult (List SquarePayment)) (stResp : ApiResult (List StripeCharge)) :
    PlatformMap :=
  let results : List PlatformData :=
    (if facebook_token.isSome then [fetch_facebook_conversions fbResp] else []) ++
    (if google_token.isSome then [fetch_google_ads_data gResp] else []) ++
    (if square_token.isSome then [fetch_square_transactions sqResp] else []) ++
    (if stripe_token.isSome then [fetch_stripe_events stResp] else [])
  if results.isEmpty then
    { facebook := fallback_facebook_data, google := fallback_google_data,
      square := fallback_square_data, stripe := fallback_stripe_data }
  else
    { facebook := results.getD 0 fallback_facebook_data,
      google := results.getD 1 fallback_google_data,
      square := results.getD 2 fallback_square_data,
      stripe := results.getD 3 fallback_stripe_data }

/-- Integration-status classification of `get_data_integration_status`
(data_integration.py lines 37-77): share of `success` records decides
`fully_integrated` (≥ 75%) / `partially_integrated` (≥ 25%); otherwise
any present OAuth token gives `tokens_configured`, else `demo_mode`. -/
def classify_integration_status (m : PlatformMap)
    (facebook_token google_token square_token stripe_token : Option String) : String :=
  let real_count := [m.facebook, m.google, m.square, m.stripe].countP
    (fun r => r.status == "success")
  let real_data_percentage : ℚ := (real_count : ℚ) / 4 * 100
  if 75 ≤ real_data_percentage then "fully_integrated"
  else if 25 ≤ real_data_percentage then "partially_integrated"
  else if facebook_token.isSome ∨ google_token.isSome ∨
      square_token.isSome ∨ stripe_token.isSome then "tokens_configured"
  else "demo_mode"

/-! ### General lemmas about the embedded primitives -/

/-- Evaluation rule for `round` on explicit rationals. -/
theorem round_rat_eq (q : ℚ) (z : ℤ) (h1 : (z : ℚ) ≤ q + 1 / 2)
    (h2 : q + 1 / 2 < z + 1) : round q = z := by
  rw [round_eq]
  exact Int.floor_eq_iff.mpr ⟨h1, h2⟩

/-- Evaluation rule for `roundTo` on explicit rationals. -/
theorem roundTo_eq_of (d : ℕ) (q : ℚ) (z : ℤ) (h1 : (z : ℚ) ≤ q * 10 ^ d + 1 / 2)
    (h2 : q * 10 ^ d + 1 / 2 < z + 1) : roundTo d q = (z : ℚ) / 10 ^ d := by
  rw [roundTo, round_rat_eq (q * 10 ^ d) z h1 h2]

/-- The SHA-256 implementation reproduces the FIPS 180-4 known-answer
digest of "abc". -/
theorem sha256_known_answer : sha256_hexdigest (encodeStr "abc") =
    "ba7816bf8f01cfea414140de5dae2223b00361a396177a9cb410ff61f20015ad" := by decide

/-- The rounding step moves a value by at most half a unit in the last
decimal place. -/
theorem abs_roundTo_sub (d : ℕ) (q : ℚ) :
    |roundTo d q - q| ≤ 1 / (2 * 10 ^ d) := by
  have h10 : (0 : ℚ) < 10 ^ d := by positivity
  have key : roundTo d q - q =
      (((round (q * 10 ^ d) : ℤ) : ℚ) - q * 10 ^ d) / 10 ^ d := by
    rw [roundTo]
    field_simp
    ring
  rw [key, abs_div, abs_of_pos h10]
  have h1 : |((round (q * 10 ^ d) : ℤ) : ℚ) - q * 10 ^ d| ≤ 1 / 2 := by
    rw [abs_sub_comm]
    exact abs_sub_round (q * 10 ^ d)
  calc |((round (q * 10 ^ d) : ℤ) : ℚ) - q * 10 ^ d| / 10 ^ d
      ≤ (1 / 2) / 10 ^ d := by gcongr
    _ = 1 / (2 * 10 ^ d) := by rw [div_div]

/-- Rounding to a fixed number of decimals is monotone. -/
theorem roundTo_mono (d : ℕ) {x y : ℚ} (h : x ≤ y) :
    roundTo d x ≤ roundTo d y := by
  have h10 : (0 : ℚ) < 10 ^ d := by positivity
  have hm : x * 10 ^ d ≤ y * 10 ^ d := by nlinarith
  have hr : round (x * 10 ^ d) ≤ round (y * 10 ^ d) := by
    rw [round_eq, round_eq]
    exact Int.floor_mono (by linarith)
  have hc : ((round (x * 10 ^ d) : ℤ) : ℚ) ≤ ((round (y * 10 ^ d) : ℤ) : ℚ) := by
    exact_mod_cast hr
  rw [roundTo, roundTo]
  gcongr

/-- Rounding to a fixed number of decimals preserves nonnegativity. -/
theorem roundTo_nonneg (d : ℕ) {q : ℚ} (h : 0 ≤ q) : 0 ≤ roundTo d q := by
  have h10 : (0 : ℚ) < 10 ^ d := by positivity
  rw [roundTo]
  apply div_nonneg _ h10.le
  have hr : (0 : ℤ) ≤ round (q * 10 ^ d) := by
    rw [round_eq]
    exact Int.floor_nonneg.mpr (by positivity)
  exact_mod_cast hr

/-- Summing two pointwise-close maps keeps the sums within
`length · c` of each other. -/
theorem abs_sum_map_sub_le (f g : ℚ → ℚ) (c : ℚ) :
    ∀ l : List ℚ, 0 ≤ c → (∀ w ∈ l, |f w - g w| ≤ c) →
      |(l.map f).sum - (l.map g).sum| ≤ l.length * c := by
  intro l
  induction l with
  | nil => intro _ _; simp
  | cons a t ih =>
    intro hc h
    have ha := h a (by simp)
    have ht := ih hc (fun w hw => h w (by simp [hw]))
    have hsplit : (List.map f (a :: t)).sum - (List.map g (a :: t)).sum =
        (f a - g a) + ((t.map f).sum - (t.map g).sum) := by
      simp only [List.map_cons, List.sum_cons]
      ring
    rw [hsplit]
    calc |(f a - g a) + ((t.map f).sum - (t.map g).sum)|
        ≤ |f a - g a| + |(t.map f).sum - (t.map g).sum| := abs_add _ _
      _ ≤ c + t.length * c := add_le_add ha ht
      _ = (a :: t).length * c := by
          push_cast [List.length_cons]
          ring

/-- Dividing each entry by `t` divides the sum by `t`. -/
theorem sum_map_div (l : List ℚ) (t : ℚ) :
    (l.map (fun w => w / t)).sum = l.sum / t := by
  induction l with
  | nil => simp
  | cons a tl ih => simp [List.sum_cons, ih, add_div]

/-- C8: every booking submission with `booking_value ≤ 0` is rejected
as `InvalidInput` (HTTP 400, "Booking value must be greater than 0"),
before the attribution-matching step runs, so no attribution match is
produced; the endpoint holds no store, so no stored state exists to
change. -/
theorem track_booking_rejects_nonpositive (v : ℚ) (raw : List ℚ) (h : v ≤ 0) :
    track_booking v raw = Except.error TrackError.invalidInput ∧
    ¬ ∃ ws, track_booking v raw = Except.ok ws := by
  refine ⟨by simp [track_booking, h], ?_⟩
  rintro ⟨ws, hws⟩
  simp [track_booking, h] at hws

/-- C8 witness: the zero-value booking of the spec scenario is
rejected with no match created. -/
theorem track_booking_rejects_nonpositive_witness :
    track_booking 0 [1 / 10] = Except.error TrackError.invalidInput ∧
    ¬ ∃ ws, track_booking 0 [1 / 10] = Except.ok ws :=
  track_booking_rejects_nonpositive 0 [1 / 10] le_rfl

/-- C10: the estimated booking value attached to a Square
webhook-derived conversion is at least 35 for every segment list and
every duration pattern, is exactly 45 when the estimation body fails
internally, and is in particular strictly positive even when no
pricing data exists (`segments = []`). -/
theorem booking_value_at_least_35 (estimation_failed : Bool)
    (segments : List (Option ℕ)) :
    35 ≤ calculate_booking_value estimation_failed segments ∧
    0 < calculate_booking_value estimation_failed segments ∧
    calculate_booking_value true segments = 45 := by
  have h35 : 35 ≤ calculate_booking_value estimation_failed segments := by
    cases estimation_failed with
    | true => norm_num [calculate_booking_value]
    | false => exact le_max_right _ _
  exact ⟨h35, lt_of_lt_of_le (by norm_num) h35,
    by norm_num [calculate_booking_value]⟩

/-- Evaluation of the three decimal-rounding instances used by the
concrete weighting runs below. -/
theorem roundTo3_third : roundTo 3 ((1 : ℚ) / 3) = 333 / 1000 := by
  have h := roundTo_eq_of 3 (1 / 3) 333 (by norm_num) (by norm_num)
  norm_num at h
  exact h

/-- Rounding to three decimals fixes 1/4. -/
theorem roundTo3_quarter : roundTo 3 ((1 : ℚ) / 4) = 1 / 4 := by
  have h := roundTo_eq_of 3 (1 / 4) 250 (by norm_num) (by norm_num)
  norm_num at h
  exact h

/-- Rounding to three decimals fixes 3/4. -/
theorem roundTo3_three_quarters : roundTo 3 ((3 : ℚ) / 4) = 3 / 4 := by
  have h := roundTo_eq_of 3 (3 / 4) 750 (by norm_num) (by norm_num)
  norm_num at h
  exact h

/-- Rounding to three decimals fixes 1/2. -/
theorem roundTo3_half : roundTo 3 ((1 : ℚ) / 2) = 1 / 2 := by
  have h := roundTo_eq_of 3 (1 / 2) 500 (by norm_num) (by norm_num)
  norm_num at h
  exact h

/-- C1 (amended): for every reachable raw-draw list (nonempty, each
draw in [0.1, 0.4]) the renormalised attribution weights sum to 1
within `n · 0.0005` (n the number of touchpoints; each weight is
rounded to three decimals after normalisation), and the confidence of
an empty event list is exactly 0. -/
theorem attribution_weights_sum_near_one (raw : List ℚ) (hne : raw ≠ [])
    (hw : ∀ w ∈ raw, 1 / 10 ≤ w ∧ w ≤ 2 / 5) :
    |(normalize_weights raw).sum - 1| ≤ raw.length * (1 / 2000) ∧
    calculate_attribution_confidence [] = 0 := by
  constructor
  · have hpos : 0 < raw.sum :=
      List.sum_pos raw (fun w hwm => lt_of_lt_of_le (by norm_num) (hw w hwm).1) hne
    have htne : raw.sum ≠ 0 := ne_of_gt hpos
    have hclose : ∀ w ∈ raw,
        |roundTo 3 (w / raw.sum) - w / raw.sum| ≤ 1 / 2000 := by
      intro w _
      have h := abs_roundTo_sub 3 (w / raw.sum)
      norm_num at h
      exact h
    have hgsum : (raw.map (fun w => w / raw.sum)).sum = 1 := by
      rw [sum_map_div, div_self htne]
    have hb := abs_sum_map_sub_le (fun w => roundTo 3 (w / raw.sum))
      (fun w => w / raw.sum) (1 / 2000) raw (by norm_num) hclose
    rw [hgsum] at hb
    simpa [normalize_weights] using hb
  · simp [calculate_attribution_confidence]

/-- C1 witness: a concrete two-touchpoint run satisfying the amended
bound. -/
theorem attribution_weights_sum_near_one_witness :
    |(normalize_weights [1 / 10, 2 / 5]).sum - 1| ≤
      ([1 / 10, 2 / 5] : List ℚ).length * (1 / 2000) ∧
    calculate_attribution_confidence [] = 0 :=
  attribution_weights_sum_near_one [1 / 10, 2 / 5] (by simp) (by
    intro w hwm
    simp only [List.mem_cons, List.not_mem_nil, or_false] at hwm
    rcases hwm with h | h <;> subst h <;> norm_num)

/-- C1 counterexample: the reachable draw list (0.1, 0.1, 0.1) makes
`track_booking` emit weights (0.333, 0.333, 0.333), whose sum 0.999
misses 1.0 by 0.001 — far outside the claimed 1e-6 tolerance (the
float noise of the real run, about 1e-16, cannot bridge this gap), and
the touchpoint list of the produced match is not empty. -/
theorem attribution_weights_sum_cex :
    reachable_draw (1 / 10) ∧
    track_booking 50 [1 / 10, 1 / 10, 1 / 10] =
      Except.ok [333 / 1000, 333 / 1000, 333 / 1000] ∧
    ¬ (|([333 / 1000, 333 / 1000, 333 / 1000] : List ℚ).sum - 1| ≤ 1 / 1000000) := by
  refine ⟨⟨10, by norm_num⟩, ?_, by
    norm_num
    rw [abs_of_pos (by norm_num : (0 : ℚ) < 1 / 1000)]
    norm_num⟩
  have hsum : ([1 / 10, 1 / 10, 1 / 10] : List ℚ).sum = 3 / 10 := by norm_num
  have h13 : (1 : ℚ) / 10 / (3 / 10) = 1 / 3 := by norm_num
  unfold track_booking
  rw [if_neg (by norm_num : ¬(50 : ℚ) ≤ 0)]
  simp only [normalize_weights, hsum, List.map_cons, List.map_nil, h13, roundTo3_third]

/-- C2 (code evidence): the weighting step is a function of the
`random.uniform` draws, not only of the (conversion, touchpoints)
input — two runs on the identical booking request (value 50), with
draw lists that the RNG emits with positive probability, produce
different weight vectors (0.25, 0.75) versus (0.5, 0.5). -/
theorem track_booking_weights_depend_on_rng :
    reachable_draw (1 / 10) ∧ reachable_draw (3 / 10) ∧ reachable_draw (1 / 5) ∧
    track_booking 50 [1 / 10, 3 / 10] = Except.ok [1 / 4, 3 / 4] ∧
    track_booking 50 [1 / 5, 1 / 5] = Except.ok [1 / 2, 1 / 2] ∧
    ([1 / 4, 3 / 4] : List ℚ) ≠ [1 / 2, 1 / 2] := by
  refine ⟨⟨10, by norm_num⟩, ⟨30, by norm_num⟩, ⟨20, by norm_num⟩, ?_, ?_, by norm_num⟩
  · have hsum : ([1 / 10, 3 / 10] : List ℚ).sum = 2 / 5 := by norm_num
    have ha : (1 : ℚ) / 10 / (2 / 5) = 1 / 4 := by norm_num
    have hb : (3 : ℚ) / 10 / (2 / 5) = 3 / 4 := by norm_num
    unfold track_booking
    rw [if_neg (by norm_num : ¬(50 : ℚ) ≤ 0)]
    simp only [normalize_weights, hsum, List.map_cons, List.map_nil, ha, hb,
      roundTo3_quarter, roundTo3_three_quarters]
  · have hsum : ([1 / 5, 1 / 5] : List ℚ).sum = 2 / 5 := by norm_num
    have ha : (1 : ℚ) / 5 / (2 / 5) = 1 / 2 := by norm_num
    unfold track_booking
    rw [if_neg (by norm_num : ¬(50 : ℚ) ≤ 0)]
    simp only [normalize_weights, hsum, List.map_cons, List.map_nil, ha, roundTo3_half]

/-- Event quality contributions are nonnegative. -/
theorem event_quality_nonneg (e : AttributionEvent) : 0 ≤ event_quality e := by
  unfold event_quality
  split_ifs <;> norm_num

/-- Event quality contributions are at most 1. -/
theorem event_quality_le_one (e : AttributionEvent) : event_quality e ≤ 1 := by
  unfold event_quality
  split_ifs <;> norm_num

/-- The quality total is nonnegative. -/
theorem high_confidence_total_nonneg (events : List AttributionEvent) :
    0 ≤ high_confidence_total events := by
  apply List.sum_nonneg
  intro q hq
  rcases List.mem_map.mp hq with ⟨e, _, rfl⟩
  exact event_quality_nonneg e

/-- The quality total never exceeds the event count. -/
theorem high_confidence_total_le_length (events : List AttributionEvent) :
    high_confidence_total events ≤ (events.length : ℚ) := by
  induction events with
  | nil => simp [high_confidence_total]
  | cons a t ih =>
    have ha := event_quality_le_one a
    simp only [high_confidence_total, List.map_cons, List.sum_cons,
      List.length_cons] at *
    push_cast
    linarith

/-- Appending one event adds its quality to the total. -/
theorem high_confidence_total_append (events : List AttributionEvent)
    (e : AttributionEvent) :
    high_confidence_total (events ++ [e]) =
      high_confidence_total events + event_quality e := by
  simp [high_confidence_total, List.map_append, List.sum_append]

/-- Every confidence score is nonnegative. -/
theorem confidence_nonneg (events : List AttributionEvent) :
    0 ≤ calculate_attribution_confidence events := by
  unfold calculate_attribution_confidence
  split_ifs with h
  · exact le_rfl
  · apply roundTo_nonneg
    have ht : (0 : ℚ) < (events.length : ℚ) := by
      cases events with
      | nil => exact absurd rfl h
      | cons a t =>
        have : 0 < (a :: t).length := Nat.succ_pos _
        exact_mod_cast this
    apply le_min _ (by norm_num)
    apply add_nonneg
    · apply mul_nonneg _ (by norm_num)
      exact div_nonneg (high_confidence_total_nonneg events) ht.le
    · apply le_min _ (by norm_num)
      apply mul_nonneg _ (by norm_num)
      exact div_nonneg (by positivity) ht.le

/-- C4 (amended): adding a corroborating (`cross_platform_match`)
payment-platform-confirmed conversion touchpoint — one of quality
1.0 — to an otherwise-fixed match never decreases the confidence
score.  (For a corroborating ad-click touchpoint, of quality 0.8, the
score can drop; see the counterexample.) -/
theorem confidence_mono_payment_corroboration (events : List AttributionEvent)
    (e : AttributionEvent) (hq : event_quality e = 1)
    (hx : e.cross_platform_match = true) :
    calculate_attribution_confidence events ≤
      calculate_attribution_confidence (events ++ [e]) := by
  rcases events with _ | ⟨a, t⟩
  · simpa using confidence_nonneg [e]
  · set es := a :: t with hes
    have hne : es ≠ [] := by simp [hes]
    have hne2 : es ++ [e] ≠ [] := by simp
    have ht : (0 : ℚ) < (es.length : ℚ) := by
      have : 0 < es.length := by simp [hes]
      exact_mod_cast this
    have hlen : (((es ++ [e]).length : ℕ) : ℚ) = (es.length : ℚ) + 1 := by
      push_cast [List.length_append]
      norm_num
    have hhigh : high_confidence_total (es ++ [e]) =
        high_confidence_total es + 1 := by
      rw [high_confidence_total_append, hq]
    have hcross : (cross_platform_count (es ++ [e]) : ℚ) =
        (cross_platform_count es : ℚ) + 1 := by
      have : cross_platform_count (es ++ [e]) = cross_platform_count es + 1 := by
        simp [cross_platform_count, List.countP_append, List.countP_cons, hx]
      exact_mod_cast this
    have hh0 : 0 ≤ high_confidence_total es := high_confidence_total_nonneg es
    have hht : high_confidence_total es ≤ (es.length : ℚ) :=
      high_confidence_total_le_length es
    have hct : (cross_platform_count es : ℚ) ≤ (es.length : ℚ) := by
      exact_mod_cast List.countP_le_length _
    have hc0 : (0 : ℚ) ≤ (cross_platform_count es : ℚ) := by positivity
    unfold calculate_attribution_confidence
    rw [if_neg hne, if_neg hne2]
    apply roundTo_mono
    apply min_le_min _ le_rfl
    rw [hlen, hhigh, hcross]
    have hbase : high_confidence_total es / (es.length : ℚ) ≤
        (high_confidence_total es + 1) / ((es.length : ℚ) + 1) := by
      rw [div_le_div_iff₀ ht (by linarith)]
      nlinarith
    have hbonus : (cross_platform_count es : ℚ) / (es.length : ℚ) ≤
        ((cross_platform_count es : ℚ) + 1) / ((es.length : ℚ) + 1) := by
      rw [div_le_div_iff₀ ht (by linarith)]
      nlinarith
    apply add_le_add
    · exact mul_le_mul_of_nonneg_right hbase (by norm_num)
    · exact min_le_min (mul_le_mul_of_nonneg_right hbonus (by norm_num)) le_rfl

/-- C4 witness: adding a corroborating Square conversion to a
one-ad-click match does not decrease the score. -/
theorem confidence_mono_payment_corroboration_witness :
    event_quality ⟨"square_payments", "conversion", true⟩ = 1 ∧
    calculate_attribution_confidence [⟨"facebook_ads", "ad_click", false⟩] ≤
      calculate_attribution_confidence
        ([⟨"facebook_ads", "ad_click", false⟩] ++
          [⟨"square_payments", "conversion", true⟩]) :=
  ⟨by norm_num [event_quality],
    confidence_mono_payment_corroboration
      [⟨"facebook_ads", "ad_click", false⟩]
      ⟨"square_payments", "conversion", true⟩
      (by norm_num [event_quality]) rfl⟩

/-- Closed form of the confidence score on a nonempty event list. -/
theorem confidence_eval (events : List AttributionEvent) (hne : events ≠ []) :
    calculate_attribution_confidence events =
      roundTo 1 (min (high_confidence_total events / (events.length : ℚ) * 100 +
        min ((cross_platform_count events : ℚ) / (events.length : ℚ) * 10) 15)
        (197 / 2)) := by
  unfold calculate_attribution_confidence
  rw [if_neg hne]

/-- C4 counterexample: a match holding one Square-confirmed conversion
scores 98.5; adding one corroborating touchpoint from a second
distinct platform (a `facebook_ads` ad-click with
`cross_platform_match`) drops the score to 95, because the added event
has quality 0.8 and drags the quality average down faster than the
cross-platform bonus (+5) compensates. -/
theorem confidence_drops_on_adclick_corroboration :
    calculate_attribution_confidence
        ([⟨"square_payments", "conversion", false⟩] ++
          [⟨"facebook_ads", "ad_click", true⟩]) <
      calculate_attribution_confidence
        [⟨"square_payments", "conversion", false⟩] := by
  have hq1 : event_quality ⟨"square_payments", "conversion", false⟩ = 1 := by
    norm_num [event_quality]
  have hq2 : event_quality ⟨"facebook_ads", "ad_click", true⟩ = 4 / 5 := by
    unfold event_quality
    rw [if_neg (by decide), if_pos (by decide)]
  have e1 : calculate_attribution_confidence
      [⟨"square_payments", "conversion", false⟩] = 197 / 2 := by
    rw [confidence_eval _ (by simp)]
    have hh : high_confidence_total [⟨"square_payments", "conversion", false⟩] = 1 := by
      simp [high_confidence_total, hq1]
    have hc : cross_platform_count [⟨"square_payments", "conversion", false⟩] = 0 := by
      simp [cross_platform_count]
    rw [hh, hc]
    norm_num [min_def]
    have h := roundTo_eq_of 1 (197 / 2) 985 (by norm_num) (by norm_num)
    norm_num at h
    exact h
  have e2 : calculate_attribution_confidence
      ([⟨"square_payments", "conversion", false⟩] ++
        [⟨"facebook_ads", "ad_click", true⟩]) = 95 := by
    rw [confidence_eval _ (by simp)]
    have hh : high_confidence_total
        ([⟨"square_payments", "conversion", false⟩] ++
          [⟨"facebook_ads", "ad_click", true⟩]) = 9 / 5 := by
      simp [high_confidence_total, hq1, hq2]
      norm_num
    have hc : cross_platform_count
        ([⟨"square_payments", "conversion", false⟩] ++
          [⟨"facebook_ads", "ad_click", true⟩]) = 1 := by
      simp [cross_platform_count]
    rw [hh, hc]
    norm_num [min_def]
    have h := roundTo_eq_of 1 95 950 (by norm_num) (by norm_num)
    norm_num at h
    exact h
  rw [e1, e2]
  norm_num

/-- C3 (amended): identity hashing is deterministic and normalizing in
this sense — for a fixed salt, emails agreeing after lower-casing
(the code lower-cases but does not trim) hash identically, and phone
numbers with the same digit sequence hash identically, across repeated
calls (the hash is a pure function of the normalized input and
salt). -/
theorem hash_identifier_normalizes (e1 e2 p1 p2 s : String)
    (he : lower_str e1 = lower_str e2) (hp : clean_phone p1 = clean_phone p2) :
    email_hash_hex e1 s = email_hash_hex e2 s ∧
    phone_hash_hex p1 s = phone_hash_hex p2 s := by
  unfold email_hash_hex phone_hash_hex
  rw [he, hp]
  exact ⟨rfl, rfl⟩

/-- C3 witness: case-differing emails and format-differing phone
numbers collapse to the same hash under the code's default salt. -/
theorem hash_identifier_normalizes_witness :
    email_hash_hex "A@B.COM" "default-salt" =
      email_hash_hex "a@b.com" "default-salt" ∧
    phone_hash_hex "(555) 123-4567" "default-salt" =
      phone_hash_hex "555.123.4567" "default-salt" :=
  hash_identifier_normalizes "A@B.COM" "a@b.com" "(555) 123-4567"
    "555.123.4567" "default-salt" (by decide) (by decide)

/-- C3 counterexample: the code does not trim the email before
hashing, so the spec's stated instance fails — `"A@B.COM "` (trailing
space) and `"a@b.com"` produce different digests under the same
(default) salt. -/
theorem email_hash_not_trimmed :
    email_hash_hex "A@B.COM " "default-salt" ≠
      email_hash_hex "a@b.com" "default-salt" := by decide

/-- C9 (amended): when a signature key is configured (non-empty),
webhook verification accepts a payload iff the provided signature
equals the hex HMAC-SHA256 of the raw payload under the key; when no
key is configured, every payload is accepted regardless of signature
("Allow in development"), so invalid signatures are not rejected in
that state. -/
theorem verify_signature_iff (key payload signature : String) (hk : key ≠ "") :
    verify_webhook_signature (some key) payload signature = true ↔
      signature = hmac_sha256_hexdigest key payload := by
  simp [verify_webhook_signature, hk]

/-- C9 witness: with a configured key, the genuine HMAC digest is
accepted. -/
theorem verify_signature_iff_witness :
    verify_webhook_signature (some "square-signature-key") "payload-1"
      (hmac_sha256_hexdigest "square-signature-key" "payload-1") = true :=
  (verify_signature_iff "square-signature-key" "payload-1"
    (hmac_sha256_hexdigest "square-signature-key" "payload-1")
    (by decide)).mpr rfl

/-- C9 counterexample: with no signature key configured the verifier
accepts two distinct signatures for the same payload; since at most
one string can equal the HMAC-SHA256 digest of that payload under any
shared secret, acceptance is not "iff the signature equals the HMAC",
and a webhook with an invalid signature is not rejected. -/
theorem verify_accepts_all_without_key :
    verify_webhook_signature none "payload-1" "sig-a" = true ∧
    verify_webhook_signature none "payload-1" "sig-b" = true ∧
    ("sig-a" : String) ≠ "sig-b" := by decide

/-- C5 (amended): each platform fetch is total — every outcome yields
either a `success`-status record or exactly that platform's fixed
fallback record (never an exception to the caller) — and with all four
credentials absent the aggregator returns every platform's fallback
without invoking any fetch.  (With only some credentials absent,
however, the aggregator's positional indexing can hand a platform
another platform's record instead of its fallback; see the
counterexample.) -/
theorem fetch_never_raises (fbR : ApiResult (List FbCampaign))
    (gR : ApiResult (List GoogleRow)) (sqR : ApiResult (List SquarePayment))
    (stR : ApiResult (List StripeCharge)) :
    ((fetch_facebook_conversions fbR).status = "success" ∨
      fetch_facebook_conversions fbR = fallback_facebook_data) ∧
    ((fetch_google_ads_data gR).status = "success" ∨
      fetch_google_ads_data gR = fallback_google_data) ∧
    ((fetch_square_transactions sqR).status = "success" ∨
      fetch_square_transactions sqR = fallback_square_data) ∧
    ((fetch_stripe_events stR).status = "success" ∨
      fetch_stripe_events stR = fallback_stripe_data) ∧
    get_all_platform_data none none none none fbR gR sqR stR =
      { facebook := fallback_facebook_data, google := fallback_google_data,
        square := fallback_square_data, stripe := fallback_stripe_data } := by
  refine ⟨?_, ?_, ?_, ?_, ?_⟩
  · cases fbR <;> simp [fetch_facebook_conversions]
  · cases gR <;> simp [fetch_google_ads_data]
  · cases sqR <;> simp [fetch_square_transactions]
  · cases stR <;> simp [fetch_stripe_events]
  · simp [get_all_platform_data]

/-- C5 counterexample: with the facebook credential absent but a
google credential present and succeeding, the aggregator does not give
the facebook key the facebook fallback — positional indexing hands it
the google record instead. -/
theorem credentials_absent_not_fallback :
    (get_all_platform_data none (some "google-token") none none
        ApiResult.exn (ApiResult.ok []) ApiResult.exn ApiResult.exn).facebook ≠
      fallback_facebook_data ∧
    (get_all_platform_data none (some "google-token") none none
        ApiResult.exn (ApiResult.ok []) ApiResult.exn ApiResult.exn).facebook.status =
      "success" := by
  constructor
  · intro h
    have hst := congrArg PlatformData.status h
    simp [get_all_platform_data, fetch_google_ads_data, fallback_facebook_data] at hst
  · simp [get_all_platform_data, fetch_google_ads_data]

/-- C6 (code evidence): with only the google credential present and
its fetch succeeding, the aggregated map assigns the live `google_ads`
record to the `facebook` key and the google fallback to the `google`
key — the keys do not receive their own platform's data.  With all
four credentials absent the claim's scenario does hold: all four
records are the fallbacks and the classification is `demo_mode`. -/
theorem platform_map_misassigns_partial_tokens :
    (get_all_platform_data none (some "google-token") none none
        ApiResult.exn (ApiResult.ok []) ApiResult.exn ApiResult.exn).facebook.source =
      "google_ads" ∧
    (get_all_platform_data none (some "google-token") none none
        ApiResult.exn (ApiResult.ok []) ApiResult.exn ApiResult.exn).google =
      fallback_google_data ∧
    (fetch_google_ads_data (ApiResult.ok [])).status = "success" ∧
    get_all_platform_data none none none none ApiResult.exn ApiResult.exn
        ApiResult.exn ApiResult.exn =
      { facebook := fallback_facebook_data, google := fallback_google_data,
        square := fallback_square_data, stripe := fallback_stripe_data } ∧
    classify_integration_status
        { facebook := fallback_facebook_data, google := fallback_google_data,
          square := fallback_square_data, stripe := fallback_stripe_data }
        none none none none = "demo_mode" := by
  refine ⟨?_, ?_, ?_, ?_, ?_⟩
  · simp [get_all_platform_data, fetch_google_ads_data]
  · simp [get_all_platform_data, fetch_google_ads_data]
  · simp [fetch_google_ads_data]
  · simp [get_all_platform_data]
  · have hfs : ¬ (("fallback" : String) = "success") := by decide
    norm_num [classify_integration_status, fallback_facebook_data,
      fallback_google_data, fallback_square_data, fallback_stripe_data,
      List.countP_cons, List.countP_nil, hfs]

/-- Every binary64-rounded value is a dyadic rational. -/
theorem fp64round_isDyadic (q : ℚ) : isDyadic (fp64round q) := by
  unfold fp64round
  split_ifs with h
  · exact ⟨0, 0, by norm_num⟩
  · set e : ℤ := Int.log 2 |q| - 52 with he
    set m : ℤ := round (q / 2 ^ e) with hm
    rcases le_or_lt 0 e with he0 | he0
    · refine ⟨m * 2 ^ e.toNat, 0, ?_⟩
      push_cast
      rw [pow_zero, div_one]
      congr 1
      rw [← zpow_natCast (2 : ℚ) e.toNat, Int.toNat_of_nonneg he0]
    · refine ⟨m, (-e).toNat, ?_⟩
      rw [div_eq_mul_inv]
      congr 1
      rw [← zpow_natCast (2 : ℚ) (-e).toNat, Int.toNat_of_nonneg (by linarith),
        zpow_neg, inv_inv]

/-- The exact decimal value 0.01 is not dyadic, hence not binary64
representable. -/
theorem not_isDyadic_one_hundredth : ¬ isDyadic ((1 : ℚ) / 100) := by
  rintro ⟨k, n, hkn⟩
  have h2 : (2 : ℚ) ^ n = 100 * (k : ℚ) := by
    field_simp at hkn
    linarith
  have h3 : (2 ^ n : ℤ) = 100 * k := by exact_mod_cast h2
  have h5 : (5 : ℤ) ∣ 2 ^ n := ⟨20 * k, by linarith⟩
  have h52 : (5 : ℤ) ∣ 2 := (by norm_num : Prime (5 : ℤ)).dvd_of_dvd_pow h5
  norm_num at h52

/-- Binary64 rounding has relative error at most `2^-53`. -/
theorem fp64round_error (q : ℚ) : |fp64round q - q| ≤ |q| / 2 ^ 53 := by
  unfold fp64round
  split_ifs with h
  · simp [h]
  · set e : ℤ := Int.log 2 |q| - 52 with he
    have h2e : (0 : ℚ) < (2 : ℚ) ^ e := by positivity
    have hlog : (2 : ℚ) ^ (Int.log 2 |q|) ≤ |q| := by
      have := Int.zpow_log_le_self (R := ℚ) (b := 2) (by norm_num)
        (abs_pos.mpr h)
      exact_mod_cast this
    have key : ((round (q / 2 ^ e) : ℤ) : ℚ) * 2 ^ e - q =
        (((round (q / 2 ^ e) : ℤ) : ℚ) - q / 2 ^ e) * 2 ^ e := by
      rw [sub_mul, div_mul_cancel₀]
      exact ne_of_gt h2e
    rw [key, abs_mul, abs_of_pos h2e]
    have h1 : |((round (q / 2 ^ e) : ℤ) : ℚ) - q / 2 ^ e| ≤ 1 / 2 := by
      rw [abs_sub_comm]
      exact abs_sub_round _
    have hee : (2 : ℚ) ^ e ≤ |q| / 2 ^ (52 : ℕ) := by
      rw [he, zpow_sub₀ (by norm_num : (2 : ℚ) ≠ 0)]
      rw [show ((52 : ℤ)) = ((52 : ℕ) : ℤ) from rfl, zpow_natCast]
      gcongr
    calc |((round (q / 2 ^ e) : ℤ) : ℚ) - q / 2 ^ e| * 2 ^ e
        ≤ (1 / 2) * (|q| / 2 ^ (52 : ℕ)) :=
          mul_le_mul h1 hee h2e.le (by norm_num)
      _ = |q| / 2 ^ 53 := by ring

/-- C7 (amended): monetary normalisation divides platform-native
amounts by the documented fixed divisors (100 for Square and Stripe
cents, 1,000,000 for Google Ads micros) but performs the division in
binary floating point, not fixed-point or decimal arithmetic: every
converted value is a dyadic (binary64-representable) rational within
relative error `2^-53` of the exact decimal quotient — and therefore
generally differs from it (see the counterexample). -/
theorem monetary_normalization_uses_binary_float (micros cents : ℕ) :
    isDyadic (google_cost_micros_to_dollars micros) ∧
    isDyadic (square_amount_to_dollars cents) ∧
    isDyadic (stripe_amount_to_dollars cents) ∧
    |google_cost_micros_to_dollars micros - micros / 1000000| ≤
      ((micros : ℚ) / 1000000) / 2 ^ 53 ∧
    |square_amount_to_dollars cents - cents / 100| ≤
      ((cents : ℚ) / 100) / 2 ^ 53 ∧
    |stripe_amount_to_dollars cents - cents / 100| ≤
      ((cents : ℚ) / 100) / 2 ^ 53 := by
  refine ⟨fp64round_isDyadic _, fp64round_isDyadic _, fp64round_isDyadic _,
    ?_, ?_, ?_⟩
  · have h := fp64round_error ((micros : ℚ) / 1000000)
    rwa [abs_of_nonneg (show (0 : ℚ) ≤ (micros : ℚ) / 1000000 by positivity)] at h
  · have h := fp64round_error ((cents : ℚ) / 100)
    rwa [abs_of_nonneg (show (0 : ℚ) ≤ (cents : ℚ) / 100 by positivity)] at h
  · have h := fp64round_error ((cents : ℚ) / 100)
    rwa [abs_of_nonneg (show (0 : ℚ) ≤ (cents : ℚ) / 100 by positivity)] at h

/-- C7 counterexample: one Square cent does not convert to the exact
decimal 0.01 — the code's binary float division produces a dyadic
value, and 0.01 is not dyadic, so the conversion is not decimal
arithmetic as claimed. -/
theorem square_cent_not_decimal :
    square_amount_to_dollars 1 ≠ (1 : ℚ) / 100 := by
  intro h
  have hd : isDyadic (square_amount_to_dollars 1) := fp64round_isDyadic _
  rw [h] at hd
  exact not_isDyadic_one_hundredth hd
